import Mathlib

/-!
Verification of the CRUD contract of `src/3lab/crud.py` (RabotaWeb).

The service exposes five operations (list, get-by-id, create, update,
delete) per resource kind (Movie, Genre) over two PostgreSQL tables.
We embed each table as a list of rows together with the auto-increment
sequence counter, embed each SQL statement as a pure function on that
state, and embed each route handler from the source one-to-one.
-/

set_option autoImplicit false

namespace RabotaWeb

/-- Request body `MovieCreate` from the source: `name`, `description`,
`popularity` (pydantic model, all fields required). -/
structure MovieCreate where
  name : String
  description : String
  popularity : Int
deriving DecidableEq, Repr

/-- Response model `Movie` from the source: the create fields plus `id`. -/
structure Movie where
  id : Int
  name : String
  description : String
  popularity : Int
deriving DecidableEq, Repr

/-- Request body `GenreCreate` from the source, same shape as `MovieCreate`. -/
structure GenreCreate where
  name : String
  description : String
  popularity : Int
deriving DecidableEq, Repr

/-- Response model `Genre` from the source, same shape as `Movie`. -/
structure Genre where
  id : Int
  name : String
  description : String
  popularity : Int
deriving DecidableEq, Repr

/-- Structured error raised by the handlers (`HTTPException(status_code, detail)`). -/
structure HTTPException where
  status_code : Nat
  detail : String
deriving DecidableEq, Repr

/-- The `movies` table: its rows (a row has columns id, name, description,
popularity, so it has the same shape as `Movie`) together with the
auto-increment sequence backing the `id` primary key. -/
structure MoviesDb where
  rows : List Movie
  nextId : Int
deriving DecidableEq, Repr

/-- The `genres` table, same shape as the `movies` table. -/
structure GenresDb where
  rows : List Genre
  nextId : Int
deriving DecidableEq, Repr

/-- Ids currently present in the `movies` table. -/
def movieIds (db : MoviesDb) : List Int := db.rows.map Movie.id

/-- Ids currently present in the `genres` table. -/
def genreIds (db : GenresDb) : List Int := db.rows.map Genre.id

/-- Well-formedness of the `movies` table maintained by PostgreSQL:
`id` is a primary key (no duplicates) fed by the sequence, so every id in
the table is below the sequence's next value. -/
def MoviesDb.WF (db : MoviesDb) : Prop :=
  (movieIds db).Nodup ∧ ∀ r ∈ db.rows, r.id < db.nextId

/-- Well-formedness of the `genres` table, same as for `movies`. -/
def GenresDb.WF (db : GenresDb) : Prop :=
  (genreIds db).Nodup ∧ ∀ r ∈ db.rows, r.id < db.nextId

instance (db : MoviesDb) : Decidable db.WF := by
  unfold MoviesDb.WF; infer_instance

instance (db : GenresDb) : Decidable db.WF := by
  unfold GenresDb.WF; infer_instance

/-! SQL statements, embedded as pure functions on the table state. -/

/-- `SELECT * FROM movies` (connection.fetch). -/
def fetchMovies (db : MoviesDb) : List Movie := db.rows

/-- `SELECT * FROM movies WHERE id = $1` (connection.fetchrow): at most one
row, none when the id is absent. -/
def fetchrowMovie (db : MoviesDb) (id : Int) : Option Movie :=
  db.rows.find? (fun r => r.id == id)

/-- `INSERT INTO movies (name, description, popularity) VALUES ($1,$2,$3)
RETURNING id` (connection.fetchval): appends a row with the generated id
and returns that id. -/
def insertMovie (db : MoviesDb) (name description : String) (popularity : Int) :
    Int × MoviesDb :=
  (db.nextId,
   { rows := db.rows ++ [{ id := db.nextId, name := name,
                           description := description, popularity := popularity }],
     nextId := db.nextId + 1 })

/-- `UPDATE movies SET name=$1, description=$2, popularity=$3 WHERE id=$4`
(connection.execute): overwrites the non-id fields of every matching row and
returns the PostgreSQL command tag "UPDATE n" with the affected row count. -/
def updateMoviesSql (db : MoviesDb) (name description : String) (popularity : Int)
    (id : Int) : String × MoviesDb :=
  ("UPDATE " ++ toString (db.rows.countP (fun r => r.id == id)),
   { rows := db.rows.map (fun r =>
       if r.id == id then
         { r with name := name, description := description, popularity := popularity }
       else r),
     nextId := db.nextId })

/-- `DELETE FROM movies WHERE id = $1` (connection.execute): removes every
matching row and returns the command tag "DELETE n". -/
def deleteMoviesSql (db : MoviesDb) (id : Int) : String × MoviesDb :=
  ("DELETE " ++ toString (db.rows.countP (fun r => r.id == id)),
   { rows := db.rows.filter (fun r => !(r.id == id)), nextId := db.nextId })

/-- `SELECT * FROM genres` (connection.fetch). -/
def fetchGenres (db : GenresDb) : List Genre := db.rows

/-- `SELECT * FROM genres WHERE id = $1` (connection.fetchrow). -/
def fetchrowGenre (db : GenresDb) (id : Int) : Option Genre :=
  db.rows.find? (fun r => r.id == id)

/-- `INSERT INTO genres ... RETURNING id` (connection.fetchval). -/
def insertGenre (db : GenresDb) (name description : String) (popularity : Int) :
    Int × GenresDb :=
  (db.nextId,
   { rows := db.rows ++ [{ id := db.nextId, name := name,
                           description := description, popularity := popularity }],
     nextId := db.nextId + 1 })

/-- `UPDATE genres SET ... WHERE id=$4` (connection.execute). -/
def updateGenresSql (db : GenresDb) (name description : String) (popularity : Int)
    (id : Int) : String × GenresDb :=
  ("UPDATE " ++ toString (db.rows.countP (fun r => r.id == id)),
   { rows := db.rows.map (fun r =>
       if r.id == id then
         { r with name := name, description := description, popularity := popularity }
       else r),
     nextId := db.nextId })

/-- `DELETE FROM genres WHERE id = $1` (connection.execute). -/
def deleteGenresSql (db : GenresDb) (id : Int) : String × GenresDb :=
  ("DELETE " ++ toString (db.rows.countP (fun r => r.id == id)),
   { rows := db.rows.filter (fun r => !(r.id == id)), nextId := db.nextId })

/-! Route handlers, embedded one-to-one from the source.  A handler that can
raise `HTTPException` returns `Except HTTPException _`; a handler that
mutates the table also returns the resulting table state. -/

/-- `GET /movies/` (read_movies): fetch all rows, map each to a `Movie`. -/
def read_movies (db : MoviesDb) : List Movie :=
  (fetchMovies db).map (fun movie =>
    { id := movie.id, name := movie.name,
      description := movie.description, popularity := movie.popularity })

/-- `GET /movies/{id}` (read_movie): fetchrow by id; 404 "Movie not found"
when no row exists. -/
def read_movie (db : MoviesDb) (id : Int) : Except HTTPException Movie :=
  match fetchrowMovie db id with
  | some movie => .ok { id := movie.id, name := movie.name,
                        description := movie.description, popularity := movie.popularity }
  | none => .error { status_code := 404, detail := "Movie not found" }

/-- `POST /movies/` (create_movie): insert returning the generated id and
answer with the full object `Movie(id=new_movie_id, **movie.dict())`. -/
def create_movie (db : MoviesDb) (movie : MovieCreate) : Movie × MoviesDb :=
  let res := insertMovie db movie.name movie.description movie.popularity
  ({ id := res.1, name := movie.name,
     description := movie.description, popularity := movie.popularity }, res.2)

/-- `PUT /movies/{movie_id}` (update_movie): execute the update; 404 when the
command tag is "UPDATE 0", otherwise answer with the path id and the
submitted fields (no re-fetch). -/
def update_movie (db : MoviesDb) (movie_id : Int) (updated_movie : MovieCreate) :
    Except HTTPException Movie × MoviesDb :=
  let res := updateMoviesSql db updated_movie.name updated_movie.description
    updated_movie.popularity movie_id
  if res.1 = "UPDATE 0" then
    (.error { status_code := 404, detail := "Movie not found" }, res.2)
  else
    (.ok { id := movie_id, name := updated_movie.name,
           description := updated_movie.description,
           popularity := updated_movie.popularity }, res.2)

/-- `DELETE /movies/{movie_id}` (delete_movie): execute the delete; 404 when
the command tag is "DELETE 0", otherwise a confirmation message. -/
def delete_movie (db : MoviesDb) (movie_id : Int) :
    Except HTTPException String × MoviesDb :=
  let res := deleteMoviesSql db movie_id
  if res.1 = "DELETE 0" then
    (.error { status_code := 404, detail := "Movie not found" }, res.2)
  else
    (.ok "Movie deleted", res.2)

/-- `GET /genres/` (read_genres). -/
def read_genres (db : GenresDb) : List Genre :=
  (fetchGenres db).map (fun genre =>
    { id := genre.id, name := genre.name,
      description := genre.description, popularity := genre.popularity })

/-- `GET /genres/{id}` (read_genre): 404 "Genre not found" when absent. -/
def read_genre (db : GenresDb) (id : Int) : Except HTTPException Genre :=
  match fetchrowGenre db id with
  | some genre => .ok { id := genre.id, name := genre.name,
                        description := genre.description, popularity := genre.popularity }
  | none => .error { status_code := 404, detail := "Genre not found" }

/-- `POST /genres/` (create_genre). -/
def create_genre (db : GenresDb) (genre : GenreCreate) : Genre × GenresDb :=
  let res := insertGenre db genre.name genre.description genre.popularity
  ({ id := res.1, name := genre.name,
     description := genre.description, popularity := genre.popularity }, res.2)

/-- `PUT /genres/{genre_id}` (update_genre). -/
def update_genre (db : GenresDb) (genre_id : Int) (updated_genre : GenreCreate) :
    Except HTTPException Genre × GenresDb :=
  let res := updateGenresSql db updated_genre.name updated_genre.description
    updated_genre.popularity genre_id
  if res.1 = "UPDATE 0" then
    (.error { status_code := 404, detail := "Genre not found" }, res.2)
  else
    (.ok { id := genre_id, name := updated_genre.name,
           description := updated_genre.description,
           popularity := updated_genre.popularity }, res.2)

/-- `DELETE /genres/{genre_id}` (delete_genre). -/
def delete_genre (db : GenresDb) (genre_id : Int) :
    Except HTTPException String × GenresDb :=
  let res := deleteGenresSql db genre_id
  if res.1 = "DELETE 0" then
    (.error { status_code := 404, detail := "Genre not found" }, res.2)
  else
    (.ok "Genre deleted", res.2)

/-! Helper lemmas shared by the claim theorems. -/

/-- Counting rows by id in the `movies` table equals counting the id among
the table's ids. -/
theorem movie_countP_eq_count (db : MoviesDb) (id : Int) :
    db.rows.countP (fun r => r.id == id) = (movieIds db).countP (fun x => x == id) := by
  unfold movieIds
  rw [List.countP_map]
  rfl

/-- Counting rows by id in the `genres` table equals counting the id among
the table's ids. -/
theorem genre_countP_eq_count (db : GenresDb) (id : Int) :
    db.rows.countP (fun r => r.id == id) = (genreIds db).countP (fun x => x == id) := by
  unfold genreIds
  rw [List.countP_map]
  rfl

/-- In a duplicate-free list of ids, the count of an id is one when present
and zero when absent. -/
theorem countP_ids_nodup (ids : List Int) (a : Int) (h : ids.Nodup) :
    ids.countP (fun x => x == a) = if a ∈ ids then 1 else 0 := by
  by_cases hm : a ∈ ids
  · simp only [hm, if_true]
    have := List.count_eq_one_of_mem h hm
    simpa [List.count_eq_countP] using this
  · simp only [hm, if_false]
    rw [List.countP_eq_zero]
    intro x hx
    simp only [beq_iff_eq]
    rintro rfl
    exact hm hx

/-- Zero rows match an id that is absent from the `movies` table. -/
theorem movie_countP_eq_zero (db : MoviesDb) (id : Int) (h : id ∉ movieIds db) :
    db.rows.countP (fun r => r.id == id) = 0 := by
  rw [List.countP_eq_zero]
  intro r hr
  simp only [beq_iff_eq]
  intro he
  exact h (he ▸ List.mem_map_of_mem Movie.id hr)

/-- Zero rows match an id that is absent from the `genres` table. -/
theorem genre_countP_eq_zero (db : GenresDb) (id : Int) (h : id ∉ genreIds db) :
    db.rows.countP (fun r => r.id == id) = 0 := by
  rw [List.countP_eq_zero]
  intro r hr
  simp only [beq_iff_eq]
  intro he
  exact h (he ▸ List.mem_map_of_mem Genre.id hr)

/-- Fetchrow on the `movies` table finds nothing exactly when the id is
absent. -/
theorem fetchrowMovie_eq_none (db : MoviesDb) (id : Int) (h : id ∉ movieIds db) :
    fetchrowMovie db id = none := by
  unfold fetchrowMovie
  rw [List.find?_eq_none]
  intro r hr
  simp only [beq_iff_eq]
  intro he
  exact h (he ▸ List.mem_map_of_mem Movie.id hr)

/-- Fetchrow on the `genres` table finds nothing exactly when the id is
absent. -/
theorem fetchrowGenre_eq_none (db : GenresDb) (id : Int) (h : id ∉ genreIds db) :
    fetchrowGenre db id = none := by
  unfold fetchrowGenre
  rw [List.find?_eq_none]
  intro r hr
  simp only [beq_iff_eq]
  intro he
  exact h (he ▸ List.mem_map_of_mem Genre.id hr)

/-- The update command tag is "UPDATE 1" when the id is present in a
well-formed `movies` table. -/
theorem movie_countP_eq_one (db : MoviesDb) (id : Int)
    (hwf : db.WF) (h : id ∈ movieIds db) :
    db.rows.countP (fun r => r.id == id) = 1 := by
  rw [movie_countP_eq_count, countP_ids_nodup _ _ hwf.1, if_pos h]

/-- The count of a present id in a well-formed `genres` table is one. -/
theorem genre_countP_eq_one (db : GenresDb) (id : Int)
    (hwf : db.WF) (h : id ∈ genreIds db) :
    db.rows.countP (fun r => r.id == id) = 1 := by
  rw [genre_countP_eq_count, countP_ids_nodup _ _ hwf.1, if_pos h]

/-- The command tag for an update that matched no row. -/
theorem update_tag_zero : "UPDATE " ++ toString 0 = "UPDATE 0" := by decide

/-- The command tag for a delete that matched no row. -/
theorem delete_tag_zero : "DELETE " ++ toString 0 = "DELETE 0" := by decide

/-- The command tag for an update of one row is not the zero tag. -/
theorem update_tag_one : ("UPDATE " ++ toString 1 = "UPDATE 0") = False := by
  simp only [eq_iff_iff, iff_false]
  decide

/-- The command tag for a delete of one row is not the zero tag. -/
theorem delete_tag_one : ("DELETE " ++ toString 1 = "DELETE 0") = False := by
  simp only [eq_iff_iff, iff_false]
  decide

/-! Claim theorems. -/

/-- C1: for every integer id absent from the resource's table, get-by-id,
update, and delete each fail with a 404 error whose message is
"Movie not found" for movies and "Genre not found" for genres, rather than
returning a success payload. -/
theorem C1_absent_id_yields_404 (mdb : MoviesDb) (gdb : GenresDb) (id gid : Int)
    (payload : MovieCreate) (gpayload : GenreCreate)
    (hm : id ∉ movieIds mdb) (hg : gid ∉ genreIds gdb) :
    read_movie mdb id = .error ⟨404, "Movie not found"⟩ ∧
    (update_movie mdb id payload).1 = .error ⟨404, "Movie not found"⟩ ∧
    (delete_movie mdb id).1 = .error ⟨404, "Movie not found"⟩ ∧
    read_genre gdb gid = .error ⟨404, "Genre not found"⟩ ∧
    (update_genre gdb gid gpayload).1 = .error ⟨404, "Genre not found"⟩ ∧
    (delete_genre gdb gid).1 = .error ⟨404, "Genre not found"⟩ := by
  have hcm := movie_countP_eq_zero mdb id hm
  have hcg := genre_countP_eq_zero gdb gid hg
  refine ⟨?_, ?_, ?_, ?_, ?_, ?_⟩
  · simp [read_movie, fetchrowMovie_eq_none mdb id hm]
  · simp [update_movie, updateMoviesSql, hcm, update_tag_zero]
  · simp [delete_movie, deleteMoviesSql, hcm, delete_tag_zero]
  · simp [read_genre, fetchrowGenre_eq_none gdb gid hg]
  · simp [update_genre, updateGenresSql, hcg, update_tag_zero]
  · simp [delete_genre, deleteGenresSql, hcg, delete_tag_zero]

/-- C1 witness: the theorem applied to concrete empty tables and id 5. -/
theorem C1_absent_id_yields_404_witness :
    read_movie ⟨[], 1⟩ 5 = .error ⟨404, "Movie not found"⟩ ∧
    read_genre ⟨[], 1⟩ 5 = .error ⟨404, "Genre not found"⟩ := by
  have h := C1_absent_id_yields_404 ⟨[], 1⟩ ⟨[], 1⟩ 5 5 ⟨"a", "b", 1⟩ ⟨"a", "b", 1⟩
    (by decide) (by decide)
  exact ⟨h.1, h.2.2.2.1⟩

/-- C2: create returns the full object whose non-id fields equal exactly the
submitted payload and whose id is the database-generated sequence value, an
id not present in the table before the insert. -/
theorem C2_create_returns_fields_and_fresh_id (mdb : MoviesDb) (gdb : GenresDb)
    (mc : MovieCreate) (gc : GenreCreate) (hm : mdb.WF) (hg : gdb.WF) :
    (create_movie mdb mc).1.name = mc.name ∧
    (create_movie mdb mc).1.description = mc.description ∧
    (create_movie mdb mc).1.popularity = mc.popularity ∧
    (create_movie mdb mc).1.id = mdb.nextId ∧
    (create_movie mdb mc).1.id ∉ movieIds mdb ∧
    (create_genre gdb gc).1.name = gc.name ∧
    (create_genre gdb gc).1.description = gc.description ∧
    (create_genre gdb gc).1.popularity = gc.popularity ∧
    (create_genre gdb gc).1.id = gdb.nextId ∧
    (create_genre gdb gc).1.id ∉ genreIds gdb := by
  refine ⟨rfl, rfl, rfl, rfl, ?_, rfl, rfl, rfl, rfl, ?_⟩
  · show mdb.nextId ∉ movieIds mdb
    intro hmem
    obtain ⟨r, hr, hid⟩ := List.mem_map.mp hmem
    exact absurd (hid ▸ hm.2 r hr) (lt_irrefl _)
  · show gdb.nextId ∉ genreIds gdb
    intro hmem
    obtain ⟨r, hr, hid⟩ := List.mem_map.mp hmem
    exact absurd (hid ▸ hg.2 r hr) (lt_irrefl _)

/-- C2 witness: the theorem applied to a concrete one-row table and payload. -/
theorem C2_create_returns_fields_and_fresh_id_witness :
    (create_movie ⟨[⟨1, "x", "y", 3⟩], 2⟩ ⟨"Dune", "Sci-fi epic", 95⟩).1.id = 2 ∧
    (create_genre ⟨[], 1⟩ ⟨"Drama", "d", 7⟩).1.name = "Drama" := by
  have h := C2_create_returns_fields_and_fresh_id ⟨[⟨1, "x", "y", 3⟩], 2⟩ ⟨[], 1⟩
    ⟨"Dune", "Sci-fi epic", 95⟩ ⟨"Drama", "d", 7⟩ (by decide) (by decide)
  exact ⟨h.2.2.2.1, h.2.2.2.2.2.1⟩

/-- The table state an update leaves behind does not depend on which branch
the movie handler takes. -/
theorem update_movie_state (db : MoviesDb) (id : Int) (mc : MovieCreate) :
    (update_movie db id mc).2 =
      (updateMoviesSql db mc.name mc.description mc.popularity id).2 := by
  simp only [update_movie]
  split <;> rfl

/-- The table state an update leaves behind does not depend on which branch
the genre handler takes. -/
theorem update_genre_state (db : GenresDb) (id : Int) (gc : GenreCreate) :
    (update_genre db id gc).2 =
      (updateGenresSql db gc.name gc.description gc.popularity id).2 := by
  simp only [update_genre]
  split <;> rfl

/-- The table state a delete leaves behind does not depend on which branch
the movie handler takes. -/
theorem delete_movie_state (db : MoviesDb) (id : Int) :
    (delete_movie db id).2 = (deleteMoviesSql db id).2 := by
  simp only [delete_movie]
  split <;> rfl

/-- The table state a delete leaves behind does not depend on which branch
the genre handler takes. -/
theorem delete_genre_state (db : GenresDb) (id : Int) :
    (delete_genre db id).2 = (deleteGenresSql db id).2 := by
  simp only [delete_genre]
  split <;> rfl

/-- An update statement never changes the ids stored in the `movies` table. -/
theorem movieIds_updateSql (db : MoviesDb) (n d : String) (p : Int) (id : Int) :
    movieIds (updateMoviesSql db n d p id).2 = movieIds db := by
  unfold updateMoviesSql movieIds
  simp only [List.map_map]
  apply List.map_congr_left
  intro r _
  by_cases h : r.id = id <;> simp [Function.comp, h]

/-- An update statement never changes the ids stored in the `genres` table. -/
theorem genreIds_updateSql (db : GenresDb) (n d : String) (p : Int) (id : Int) :
    genreIds (updateGenresSql db n d p id).2 = genreIds db := by
  unfold updateGenresSql genreIds
  simp only [List.map_map]
  apply List.map_congr_left
  intro r _
  by_cases h : r.id = id <;> simp [Function.comp, h]

/-- Composing the id predicate with the movie row transformer of an update
gives back the id predicate: the transformer never changes a row's id. -/
theorem movieRow_pred_comp (n d : String) (p : Int) (id : Int) :
    ((fun r : Movie => r.id == id) ∘ fun r : Movie =>
        if r.id == id then
          { r with name := n, description := d, popularity := p }
        else r) =
      (fun r : Movie => r.id == id) := by
  funext r
  by_cases h : r.id = id <;> simp [Function.comp, h]

/-- The movie row transformer of an update is idempotent. -/
theorem movieRow_idem (n d : String) (p : Int) (id : Int) :
    ((fun r : Movie =>
        if r.id == id then
          { r with name := n, description := d, popularity := p }
        else r) ∘ fun r : Movie =>
        if r.id == id then
          { r with name := n, description := d, popularity := p }
        else r) =
      (fun r : Movie =>
        if r.id == id then
          { r with name := n, description := d, popularity := p }
        else r) := by
  funext r
  by_cases h : r.id = id <;> simp [Function.comp, h]

/-- Composing the id predicate with the genre row transformer of an update
gives back the id predicate. -/
theorem genreRow_pred_comp (n d : String) (p : Int) (id : Int) :
    ((fun r : Genre => r.id == id) ∘ fun r : Genre =>
        if r.id == id then
          { r with name := n, description := d, popularity := p }
        else r) =
      (fun r : Genre => r.id == id) := by
  funext r
  by_cases h : r.id = id <;> simp [Function.comp, h]

/-- The genre row transformer of an update is idempotent. -/
theorem genreRow_idem (n d : String) (p : Int) (id : Int) :
    ((fun r : Genre =>
        if r.id == id then
          { r with name := n, description := d, popularity := p }
        else r) ∘ fun r : Genre =>
        if r.id == id then
          { r with name := n, description := d, popularity := p }
        else r) =
      (fun r : Genre =>
        if r.id == id then
          { r with name := n, description := d, popularity := p }
        else r) := by
  funext r
  by_cases h : r.id = id <;> simp [Function.comp, h]

/-- Running the same movie update statement twice gives the same command tag
and the same table state as running it once. -/
theorem updateMoviesSql_twice (db : MoviesDb) (n d : String) (p : Int) (id : Int) :
    updateMoviesSql (updateMoviesSql db n d p id).2 n d p id =
      updateMoviesSql db n d p id := by
  unfold updateMoviesSql
  simp only [List.map_map, List.countP_map, movieRow_pred_comp n d p id,
    movieRow_idem n d p id]

/-- Running the same genre update statement twice gives the same command tag
and the same table state as running it once. -/
theorem updateGenresSql_twice (db : GenresDb) (n d : String) (p : Int) (id : Int) :
    updateGenresSql (updateGenresSql db n d p id).2 n d p id =
      updateGenresSql db n d p id := by
  unfold updateGenresSql
  simp only [List.map_map, List.countP_map, genreRow_pred_comp n d p id,
    genreRow_idem n d p id]

/-- C3: an immediate get-by-id with the id returned by create, with no
intervening mutation, returns an object equal to the create response, for
both resources. -/
theorem C3_create_then_get (mdb : MoviesDb) (gdb : GenresDb)
    (mc : MovieCreate) (gc : GenreCreate) (hm : mdb.WF) (hg : gdb.WF) :
    read_movie (create_movie mdb mc).2 (create_movie mdb mc).1.id =
      .ok (create_movie mdb mc).1 ∧
    read_genre (create_genre gdb gc).2 (create_genre gdb gc).1.id =
      .ok (create_genre gdb gc).1 := by
  constructor
  · have hnone : mdb.rows.find? (fun r => r.id == mdb.nextId) = none := by
      rw [List.find?_eq_none]
      intro r hr
      simp only [beq_iff_eq]
      exact fun he => absurd (he ▸ hm.2 r hr) (lt_irrefl _)
    simp [read_movie, fetchrowMovie, create_movie, insertMovie, List.find?_append, hnone]
  · have hnone : gdb.rows.find? (fun r => r.id == gdb.nextId) = none := by
      rw [List.find?_eq_none]
      intro r hr
      simp only [beq_iff_eq]
      exact fun he => absurd (he ▸ hg.2 r hr) (lt_irrefl _)
    simp [read_genre, fetchrowGenre, create_genre, insertGenre, List.find?_append, hnone]

/-- C3 witness: the theorem applied to concrete tables and payloads. -/
theorem C3_create_then_get_witness :
    read_movie (create_movie ⟨[⟨1, "x", "y", 3⟩], 2⟩ ⟨"Dune", "Sci-fi epic", 95⟩).2
        (create_movie ⟨[⟨1, "x", "y", 3⟩], 2⟩ ⟨"Dune", "Sci-fi epic", 95⟩).1.id =
      .ok (create_movie ⟨[⟨1, "x", "y", 3⟩], 2⟩ ⟨"Dune", "Sci-fi epic", 95⟩).1 :=
  (C3_create_then_get ⟨[⟨1, "x", "y", 3⟩], 2⟩ ⟨[], 1⟩ ⟨"Dune", "Sci-fi epic", 95⟩
    ⟨"Drama", "d", 7⟩ (by decide) (by decide)).1

/-- C4: updating an id present in a well-formed table succeeds and answers
with the path id together with the submitted fields verbatim, for both
resources; the embedded handler constructs this response from the input
rather than from the table. -/
theorem C4_update_returns_input_verbatim (mdb : MoviesDb) (gdb : GenresDb)
    (id gid : Int) (mc : MovieCreate) (gc : GenreCreate) (hm : mdb.WF) (hg : gdb.WF)
    (hmem : id ∈ movieIds mdb) (hgmem : gid ∈ genreIds gdb) :
    (update_movie mdb id mc).1 = .ok ⟨id, mc.name, mc.description, mc.popularity⟩ ∧
    (update_genre gdb gid gc).1 = .ok ⟨gid, gc.name, gc.description, gc.popularity⟩ := by
  have h1 := movie_countP_eq_one mdb id hm hmem
  have h2 := genre_countP_eq_one gdb gid hg hgmem
  constructor
  · simp [update_movie, updateMoviesSql, h1, update_tag_one]
  · simp [update_genre, updateGenresSql, h2, update_tag_one]

/-- C4 witness: the theorem applied to a concrete one-row table per resource. -/
theorem C4_update_returns_input_verbatim_witness :
    (update_movie ⟨[⟨1, "x", "y", 3⟩], 2⟩ 1 ⟨"Dune", "Updated", 98⟩).1 =
      .ok ⟨1, "Dune", "Updated", 98⟩ ∧
    (update_genre ⟨[⟨1, "g", "h", 4⟩], 2⟩ 1 ⟨"Drama", "d", 7⟩).1 =
      .ok ⟨1, "Drama", "d", 7⟩ :=
  C4_update_returns_input_verbatim ⟨[⟨1, "x", "y", 3⟩], 2⟩ ⟨[⟨1, "g", "h", 4⟩], 2⟩ 1 1
    ⟨"Dune", "Updated", 98⟩ ⟨"Drama", "d", 7⟩ (by decide) (by decide)
    (by decide) (by decide)

/-- C5: update is idempotent for an id present in a well-formed table: the
second application of the same payload returns the same success response and
leaves the same table state as the first, for both resources. -/
theorem C5_update_idempotent (mdb : MoviesDb) (gdb : GenresDb) (id gid : Int)
    (mc : MovieCreate) (gc : GenreCreate) (hm : mdb.WF) (hg : gdb.WF)
    (hmem : id ∈ movieIds mdb) (hgmem : gid ∈ genreIds gdb) :
    (update_movie mdb id mc).1 = .ok ⟨id, mc.name, mc.description, mc.popularity⟩ ∧
    update_movie (update_movie mdb id mc).2 id mc = update_movie mdb id mc ∧
    (update_genre gdb gid gc).1 = .ok ⟨gid, gc.name, gc.description, gc.popularity⟩ ∧
    update_genre (update_genre gdb gid gc).2 gid gc = update_genre gdb gid gc := by
  refine ⟨(C4_update_returns_input_verbatim mdb gdb id gid mc gc hm hg hmem hgmem).1,
    ?_, (C4_update_returns_input_verbatim mdb gdb id gid mc gc hm hg hmem hgmem).2, ?_⟩
  · rw [update_movie_state]
    simp only [update_movie, updateMoviesSql_twice]
  · rw [update_genre_state]
    simp only [update_genre, updateGenresSql_twice]

/-- C5 witness: the theorem applied to a concrete one-row table per resource. -/
theorem C5_update_idempotent_witness :
    update_movie (update_movie ⟨[⟨1, "x", "y", 3⟩], 2⟩ 1 ⟨"Dune", "Updated", 98⟩).2 1
        ⟨"Dune", "Updated", 98⟩ =
      update_movie ⟨[⟨1, "x", "y", 3⟩], 2⟩ 1 ⟨"Dune", "Updated", 98⟩ :=
  (C5_update_idempotent ⟨[⟨1, "x", "y", 3⟩], 2⟩ ⟨[⟨1, "g", "h", 4⟩], 2⟩ 1 1
    ⟨"Dune", "Updated", 98⟩ ⟨"Drama", "d", 7⟩ (by decide) (by decide)
    (by decide) (by decide)).2.1

/-- C6: deleting an id present in a well-formed table succeeds with the
confirmation message, and an immediate get-by-id on that id then fails with
404, for both resources: the deleted row is no longer observable. -/
theorem C6_delete_then_get_404 (mdb : MoviesDb) (gdb : GenresDb) (id gid : Int)
    (hm : mdb.WF) (hg : gdb.WF)
    (hmem : id ∈ movieIds mdb) (hgmem : gid ∈ genreIds gdb) :
    (delete_movie mdb id).1 = .ok "Movie deleted" ∧
    read_movie (delete_movie mdb id).2 id = .error ⟨404, "Movie not found"⟩ ∧
    (delete_genre gdb gid).1 = .ok "Genre deleted" ∧
    read_genre (delete_genre gdb gid).2 gid = .error ⟨404, "Genre not found"⟩ := by
  have h1 := movie_countP_eq_one mdb id hm hmem
  have h2 := genre_countP_eq_one gdb gid hg hgmem
  refine ⟨?_, ?_, ?_, ?_⟩
  · simp [delete_movie, deleteMoviesSql, h1, delete_tag_one]
  · have hnone : (delete_movie mdb id).2.rows.find? (fun r => r.id == id) = none := by
      rw [delete_movie_state, List.find?_eq_none]
      intro r hr
      have := (List.mem_filter.mp hr).2
      simpa using this
    simp [read_movie, fetchrowMovie, hnone]
  · simp [delete_genre, deleteGenresSql, h2, delete_tag_one]
  · have hnone : (delete_genre gdb gid).2.rows.find? (fun r => r.id == gid) = none := by
      rw [delete_genre_state, List.find?_eq_none]
      intro r hr
      have := (List.mem_filter.mp hr).2
      simpa using this
    simp [read_genre, fetchrowGenre, hnone]

/-- C6 witness: the theorem applied to a concrete one-row table per resource. -/
theorem C6_delete_then_get_404_witness :
    (delete_movie ⟨[⟨1, "x", "y", 3⟩], 2⟩ 1).1 = .ok "Movie deleted" ∧
    read_movie (delete_movie ⟨[⟨1, "x", "y", 3⟩], 2⟩ 1).2 1 =
      .error ⟨404, "Movie not found"⟩ := by
  have h := C6_delete_then_get_404 ⟨[⟨1, "x", "y", 3⟩], 2⟩ ⟨[⟨1, "g", "h", 4⟩], 2⟩ 1 1
    (by decide) (by decide) (by decide) (by decide)
  exact ⟨h.1, h.2.1⟩

/-- C7: list returns one object per row of the table, so its length equals
the row count, and an empty table yields the empty sequence, not an error. -/
theorem C7_list_length (mdb : MoviesDb) (gdb : GenresDb) :
    (read_movies mdb).length = mdb.rows.length ∧
    (mdb.rows = [] → read_movies mdb = []) ∧
    (read_genres gdb).length = gdb.rows.length ∧
    (gdb.rows = [] → read_genres gdb = []) := by
  refine ⟨?_, ?_, ?_, ?_⟩
  · simp [read_movies, fetchMovies]
  · intro h; simp [read_movies, fetchMovies, h]
  · simp [read_genres, fetchGenres]
  · intro h; simp [read_genres, fetchGenres, h]

/-- C7 witness: the theorem applied to a one-row movies table and an empty
genres table. -/
theorem C7_list_length_witness :
    (read_movies ⟨[⟨1, "x", "y", 3⟩], 2⟩).length = 1 ∧ read_genres ⟨[], 1⟩ = [] := by
  have h := C7_list_length ⟨[⟨1, "x", "y", 3⟩], 2⟩ ⟨[], 1⟩
  exact ⟨h.1, h.2.2.2 rfl⟩

/-- A list's length splits into the rows matching a predicate and the rows
surviving the complementary filter. -/
theorem length_eq_countP_add_length_filter_not {α : Type} (l : List α) (p : α → Bool) :
    l.length = l.countP p + (l.filter (fun a => !p a)).length := by
  induction l with
  | nil => rfl
  | cons a l ih =>
    by_cases h : p a <;> simp [List.countP_cons, List.filter_cons, h, ih] <;> omega

/-- C8: update and delete are id-keyed single-row operations: update keeps
the table's length and leaves every row whose id differs from the path id in
place, at most one row of a well-formed table matches the id, delete keeps
every row whose id differs, and delete removes at most one row; both for the
`movies` table and for the `genres` table. -/
theorem C8_single_row_frame (mdb : MoviesDb) (gdb : GenresDb) (id gid : Int)
    (mc : MovieCreate) (gc : GenreCreate) (hm : mdb.WF) (hg : gdb.WF) :
    (update_movie mdb id mc).2.rows.length = mdb.rows.length ∧
    (∀ (i : Nat) (r : Movie), mdb.rows[i]? = some r → r.id ≠ id →
      (update_movie mdb id mc).2.rows[i]? = some r) ∧
    mdb.rows.countP (fun r => r.id == id) ≤ 1 ∧
    (∀ r ∈ mdb.rows, r.id ≠ id → r ∈ (delete_movie mdb id).2.rows) ∧
    mdb.rows.length ≤ (delete_movie mdb id).2.rows.length + 1 ∧
    (update_genre gdb gid gc).2.rows.length = gdb.rows.length ∧
    (∀ (i : Nat) (r : Genre), gdb.rows[i]? = some r → r.id ≠ gid →
      (update_genre gdb gid gc).2.rows[i]? = some r) ∧
    gdb.rows.countP (fun r => r.id == gid) ≤ 1 ∧
    (∀ r ∈ gdb.rows, r.id ≠ gid → r ∈ (delete_genre gdb gid).2.rows) ∧
    gdb.rows.length ≤ (delete_genre gdb gid).2.rows.length + 1 := by
  have hcm : mdb.rows.countP (fun r => r.id == id) ≤ 1 := by
    rw [movie_countP_eq_count, countP_ids_nodup _ _ hm.1]
    split <;> simp
  have hcg : gdb.rows.countP (fun r => r.id == gid) ≤ 1 := by
    rw [genre_countP_eq_count, countP_ids_nodup _ _ hg.1]
    split <;> simp
  refine ⟨?_, ?_, hcm, ?_, ?_, ?_, ?_, hcg, ?_, ?_⟩
  · rw [update_movie_state]
    simp [updateMoviesSql]
  · intro i r hi hr
    rw [update_movie_state]
    unfold updateMoviesSql
    simp [List.getElem?_map, hi, hr]
  · intro r hr hne
    rw [delete_movie_state]
    unfold deleteMoviesSql
    simp only
    exact List.mem_filter.mpr ⟨hr, by simp [hne]⟩
  · rw [delete_movie_state]
    unfold deleteMoviesSql
    simp only
    have hlen := length_eq_countP_add_length_filter_not mdb.rows (fun r => r.id == id)
    omega
  · rw [update_genre_state]
    simp [updateGenresSql]
  · intro i r hi hr
    rw [update_genre_state]
    unfold updateGenresSql
    simp [List.getElem?_map, hi, hr]
  · intro r hr hne
    rw [delete_genre_state]
    unfold deleteGenresSql
    simp only
    exact List.mem_filter.mpr ⟨hr, by simp [hne]⟩
  · rw [delete_genre_state]
    unfold deleteGenresSql
    simp only
    have hlen := length_eq_countP_add_length_filter_not gdb.rows (fun r => r.id == gid)
    omega

/-- C8 witness: the theorem applied to concrete two-row tables. -/
theorem C8_single_row_frame_witness :
    (update_movie ⟨[⟨1, "a", "b", 1⟩, ⟨2, "c", "d", 2⟩], 3⟩ 1 ⟨"n", "e", 9⟩).2.rows.length = 2 ∧
    ⟨2, "c", "d", 2⟩ ∈ (delete_movie ⟨[⟨1, "a", "b", 1⟩, ⟨2, "c", "d", 2⟩], 3⟩ 1).2.rows := by
  have h := C8_single_row_frame ⟨[⟨1, "a", "b", 1⟩, ⟨2, "c", "d", 2⟩], 3⟩
    ⟨[⟨1, "g", "h", 4⟩], 2⟩ 1 1 ⟨"n", "e", 9⟩ ⟨"m", "f", 8⟩ (by decide) (by decide)
  exact ⟨h.1, h.2.2.2.1 ⟨2, "c", "d", 2⟩ (by decide) (by decide)⟩

/-- Rename a movie object into the corresponding genre object (the two
models have identical field shape). -/
def Movie.toGenre (m : Movie) : Genre :=
  { id := m.id, name := m.name, description := m.description, popularity := m.popularity }

/-- Rename a genre row into the corresponding movie row. -/
def Genre.toMovie (g : Genre) : Movie :=
  { id := g.id, name := g.name, description := g.description, popularity := g.popularity }

/-- Rename a genre create payload into a movie create payload. -/
def GenreCreate.toMovieCreate (g : GenreCreate) : MovieCreate :=
  { name := g.name, description := g.description, popularity := g.popularity }

/-- View the `genres` table as a `movies` table, row by row. -/
def GenresDb.toMoviesDb (db : GenresDb) : MoviesDb :=
  { rows := db.rows.map Genre.toMovie, nextId := db.nextId }

/-- Substitute the genre resource name into a movie error message. -/
def renameNotFound (e : HTTPException) : HTTPException :=
  { status_code := e.status_code,
    detail := if e.detail = "Movie not found" then "Genre not found" else e.detail }

/-- Substitute the genre resource name into a movie confirmation message. -/
def renameDeleted (s : String) : String :=
  if s = "Movie deleted" then "Genre deleted" else s

/-- Counting by id is invariant under the row renaming. -/
theorem countP_toMoviesDb (gdb : GenresDb) (id : Int) :
    (GenresDb.toMoviesDb gdb).rows.countP (fun r => r.id == id) =
      gdb.rows.countP (fun r => r.id == id) := by
  unfold GenresDb.toMoviesDb
  simp only
  rw [List.countP_map]
  rfl

/-- C9: every genre handler computes exactly what the corresponding movie
handler computes on the genres table viewed as a movies table, differing
only by the resource name in the 404 message, the confirmation message and
the object type: list, get-by-id, create (response and state), update
(response and state) and delete (response and state) all commute with the
renaming. -/
theorem C9_genre_mirrors_movie (gdb : GenresDb) (id : Int) (gc : GenreCreate) :
    read_genres gdb = (read_movies gdb.toMoviesDb).map Movie.toGenre ∧
    read_genre gdb id =
      ((read_movie gdb.toMoviesDb id).map Movie.toGenre).mapError renameNotFound ∧
    (create_genre gdb gc).1 =
      (create_movie gdb.toMoviesDb gc.toMovieCreate).1.toGenre ∧
    (create_genre gdb gc).2.toMoviesDb =
      (create_movie gdb.toMoviesDb gc.toMovieCreate).2 ∧
    (update_genre gdb id gc).1 =
      ((update_movie gdb.toMoviesDb id gc.toMovieCreate).1.map Movie.toGenre).mapError
        renameNotFound ∧
    (update_genre gdb id gc).2.toMoviesDb =
      (update_movie gdb.toMoviesDb id gc.toMovieCreate).2 ∧
    (delete_genre gdb id).1 =
      ((delete_movie gdb.toMoviesDb id).1.map renameDeleted).mapError renameNotFound ∧
    (delete_genre gdb id).2.toMoviesDb = (delete_movie gdb.toMoviesDb id).2 := by
  refine ⟨?_, ?_, ?_, ?_, ?_, ?_, ?_, ?_⟩
  · unfold read_genres read_movies fetchGenres fetchMovies GenresDb.toMoviesDb
    simp only [List.map_map]
    rfl
  · unfold read_genre read_movie fetchrowGenre fetchrowMovie GenresDb.toMoviesDb
    simp only [List.find?_map]
    cases h : gdb.rows.find? (fun r => r.id == id) with
    | none =>
      rw [show (fun (r : Movie) => r.id == id) ∘ Genre.toMovie =
            (fun (r : Genre) => r.id == id) from rfl, h]
      simp [Except.map, Except.mapError, renameNotFound]
    | some g =>
      rw [show (fun (r : Movie) => r.id == id) ∘ Genre.toMovie =
            (fun (r : Genre) => r.id == id) from rfl, h]
      simp [Except.map, Except.mapError, Genre.toMovie, Movie.toGenre]
  · rfl
  · unfold create_genre create_movie insertGenre insertMovie GenresDb.toMoviesDb
      GenreCreate.toMovieCreate
    simp [List.map_append, Genre.toMovie]
  · simp only [update_genre, update_movie, updateGenresSql, updateMoviesSql,
      GenreCreate.toMovieCreate, countP_toMoviesDb]
    by_cases h :
        "UPDATE " ++ toString (gdb.rows.countP (fun r => r.id == id)) = "UPDATE 0"
    · simp [h, Except.map, Except.mapError, renameNotFound]
    · simp [h, Except.map, Except.mapError, Movie.toGenre]
  · rw [update_genre_state, update_movie_state]
    unfold updateGenresSql updateMoviesSql GenresDb.toMoviesDb GenreCreate.toMovieCreate
    simp only [List.map_map, MoviesDb.mk.injEq]
    refine ⟨?_, trivial⟩
    apply List.map_congr_left
    intro r _
    by_cases h : r.id = id <;> simp [Function.comp, Genre.toMovie, h]
  · simp only [delete_genre, delete_movie, deleteGenresSql, deleteMoviesSql,
      countP_toMoviesDb]
    by_cases h :
        "DELETE " ++ toString (gdb.rows.countP (fun r => r.id == id)) = "DELETE 0"
    · simp [h, Except.map, Except.mapError, renameNotFound]
    · simp [h, Except.map, Except.mapError, renameDeleted]
  · rw [delete_genre_state, delete_movie_state]
    unfold deleteGenresSql deleteMoviesSql GenresDb.toMoviesDb
    simp only [List.filter_map]
    rfl

/-- The whole database state of the application `app`: both tables. -/
structure AppDb where
  movies : MoviesDb
  genres : GenresDb
deriving DecidableEq, Repr

/-- A request to one of the eleven routes of `app`: the route together with
its path id and decoded body, exactly the inputs a handler reads. -/
inductive Request where
  | root
  | moviesList
  | movieGet (id : Int)
  | movieCreateReq (movie : MovieCreate)
  | movieUpdate (movie_id : Int) (updated_movie : MovieCreate)
  | movieDelete (movie_id : Int)
  | genresList
  | genreGet (id : Int)
  | genreCreateReq (genre : GenreCreate)
  | genreUpdate (genre_id : Int) (updated_genre : GenreCreate)
  | genreDelete (genre_id : Int)
deriving DecidableEq, Repr

/-- A response body of `app`: a message, a resource object or list, or an
`HTTPException` carried to the client. -/
inductive Response where
  | message (s : String)
  | movieList (l : List Movie)
  | movieObj (m : Movie)
  | genreList (l : List Genre)
  | genreObj (g : Genre)
  | failure (e : HTTPException)
deriving DecidableEq, Repr

/-- Dispatch of `app`: route the request to its handler and collect the
response together with the resulting database state. -/
def runRequest (db : AppDb) : Request → Response × AppDb
  | .root => (.message "Welcome to the Movies API!", db)
  | .moviesList => (.movieList (read_movies db.movies), db)
  | .movieGet id =>
    (match read_movie db.movies id with
     | .ok m => .movieObj m
     | .error e => .failure e, db)
  | .movieCreateReq mc =>
    (.movieObj (create_movie db.movies mc).1,
     { db with movies := (create_movie db.movies mc).2 })
  | .movieUpdate mid mc =>
    (match (update_movie db.movies mid mc).1 with
     | .ok m => .movieObj m
     | .error e => .failure e,
     { db with movies := (update_movie db.movies mid mc).2 })
  | .movieDelete mid =>
    (match (delete_movie db.movies mid).1 with
     | .ok s => .message s
     | .error e => .failure e,
     { db with movies := (delete_movie db.movies mid).2 })
  | .genresList => (.genreList (read_genres db.genres), db)
  | .genreGet id =>
    (match read_genre db.genres id with
     | .ok g => .genreObj g
     | .error e => .failure e, db)
  | .genreCreateReq gc =>
    (.genreObj (create_genre db.genres gc).1,
     { db with genres := (create_genre db.genres gc).2 })
  | .genreUpdate gid gc =>
    (match (update_genre db.genres gid gc).1 with
     | .ok g => .genreObj g
     | .error e => .failure e,
     { db with genres := (update_genre db.genres gid gc).2 })
  | .genreDelete gid =>
    (match (delete_genre db.genres gid).1 with
     | .ok s => .message s
     | .error e => .failure e,
     { db with genres := (delete_genre db.genres gid).2 })

/-- C10: every route handler is deterministic: two runs of the dispatcher on
the same request and equal database states produce identical responses and
identical resulting database states; the embedded handlers read nothing but
the request and the database state. -/
theorem C10_handlers_deterministic (req : Request) (s₁ s₂ : AppDb) (h : s₁ = s₂) :
    runRequest s₁ req = runRequest s₂ req := by
  rw [h]

/-- C10 witness: two runs of a concrete update request on the same concrete
state coincide. -/
theorem C10_handlers_deterministic_witness :
    runRequest ⟨⟨[⟨1, "a", "b", 1⟩], 2⟩, ⟨[], 1⟩⟩ (.movieUpdate 1 ⟨"n", "d", 9⟩) =
      runRequest ⟨⟨[⟨1, "a", "b", 1⟩], 2⟩, ⟨[], 1⟩⟩ (.movieUpdate 1 ⟨"n", "d", 9⟩) :=
  C10_handlers_deterministic (.movieUpdate 1 ⟨"n", "d", 9⟩)
    ⟨⟨[⟨1, "a", "b", 1⟩], 2⟩, ⟨[], 1⟩⟩ ⟨⟨[⟨1, "a", "b", 1⟩], 2⟩, ⟨[], 1⟩⟩ rfl

end RabotaWeb
